import Mathlib

/-!
Verification of the zoom-vimeo transfer pipeline.

The repository moves meeting recordings from Zoom (multi-account failover
download, `zoom.py` / `zoom_upload_new.py`) to Vimeo (upload plus folder
assignment, `uploader.py` / `upload.py`), tracking progress in a CSV
worksheet.  This file gives a shallow embedding of the pure logic of those
scripts — URI resolution, path normalization, the credential-probing loop,
per-item processing, batch collection and worksheet round-tripping — with
the network, filesystem and environment modelled as explicit oracles, and
proves or refutes the specification claims about them.
-/

namespace ZoomVimeo

/-! ### Character and string helpers shared by several scripts -/

/-- ASCII decimal digit test, the semantics of the regex class matched by
Python on these inputs (all ids in the recognized URI shapes are `0`-`9`). -/
def isDigitC (c : Char) : Bool := c.isDigit

/-- Python `str.strip()`: remove leading and trailing whitespace. -/
def pyStrip (s : String) : String :=
  String.mk (((s.data.dropWhile Char.isWhitespace).reverse.dropWhile
    Char.isWhitespace).reverse)

/-- The suffix of `l` starting at the last occurrence of `c` (inclusive),
or `none` when `c` does not occur.  Helper for `os.path.splitext` and for
Python's `s.split(c)[-1]`. -/
def suffixFromLast (c : Char) : List Char → Option (List Char)
  | [] => none
  | x :: xs =>
    match suffixFromLast c xs with
    | some r => some r
    | none => if x = c then some (x :: xs) else none

/-- The part of `l` after the last occurrence of `c`, or `l` itself when `c`
does not occur. -/
def afterLast (c : Char) (l : List Char) : List Char :=
  match suffixFromLast c l with
  | some (_ :: r) => r
  | _ => l

/-- Python `os.path.splitext(p)[1]`: the extension of the basename of `p`,
beginning at its last dot, where the leading dots of the basename do not
count (so `".bashrc"` has no extension but `"a.mp4"` has `".mp4"`). -/
def splitextExt (l : List Char) : List Char :=
  let b := afterLast '/' l
  match suffixFromLast '.' (b.dropWhile (fun c => c = '.')) with
  | some e => e
  | none => []

/-- The filename normalization shared by `zoom.py`, `zoom_upload_new.py` and
`uploader.py`: `if not os.path.splitext(desired_filename)[1]:
desired_filename += ".mp4"`. -/
def normalizeName (s : String) : String :=
  if (splitextExt s.data).isEmpty then s ++ ".mp4" else s

/-- Does the character list begin with `'/'`? -/
def headIsSlash : List Char → Bool
  | '/' :: _ => true
  | _ => false

/-- Python `os.path.join(a, b)` for POSIX paths as used by the scripts. -/
def osJoin (a b : String) : String :=
  if headIsSlash b.data then b
  else if a = "" || headIsSlash a.data.reverse then a ++ b
  else a ++ "/" ++ b

/-- The constant `DOWNLOAD_DIR = "zoom_downloads"`, common to all scripts. -/
def DOWNLOAD_DIR : String := "zoom_downloads"

/-- Python `s.split('/')[-1]`, used to derive the video id from the URI
returned by the Vimeo upload. -/
def lastSegment (s : String) : String := String.mk (afterLast '/' s.data)

/-! ### The URI resolver

`uploader.py` recognizes two patterns, tried in order:
  * `re.search(r"vimeo\.com/manage/folders/(\d+)", uri)`
  * `re.search(r"/(users|me|teams)(?:/(\d+))?/(albums|projects)/(\d+)", uri)`

`upload.py` (the older variant) uses the same web pattern and
  * `re.search(r"/(?:users/\d+|me|teams/\d+)/(?:albums|projects)/(\d+)", uri)`

The matchers below implement `re.search` for exactly these patterns:
leftmost starting position wins; at a position, alternatives are tried in
the regex's order; the optional group `(?:/(\d+))?` is greedy with
backtracking to the empty alternative.  Inside a `\d+` no backtracking to a
shorter digit run can ever help for these patterns, because the character
required after each digit group is `/` or end-of-pattern, never a digit,
so the maximal digit run is taken. -/

/-- Match a literal at the head of the input, returning the rest. -/
def matchLit : List Char → List Char → Option (List Char)
  | [], s => some s
  | _ :: _, [] => none
  | l :: ls, c :: cs => if c = l then matchLit ls cs else none

/-- The literal part of the web-folder regex `vimeo\.com/manage/folders/`. -/
def webLit : List Char :=
  ['v','i','m','e','o','.','c','o','m','/','m','a','n','a','g','e','/',
   'f','o','l','d','e','r','s','/']

def usersLit : List Char := ['u','s','e','r','s']
def meLit : List Char := ['m','e']
def teamsLit : List Char := ['t','e','a','m','s']
def albumsLit : List Char := ['a','l','b','u','m','s']
def projectsLit : List Char := ['p','r','o','j','e','c','t','s']

/-- Try the web-folder pattern at the current position; on success return
the captured digit group `(\d+)`. -/
def matchWebAt (s : List Char) : Option (List Char) :=
  match matchLit webLit s with
  | none => none
  | some rest =>
    let ds := rest.takeWhile isDigitC
    if ds.isEmpty then none else some ds

/-- Search as `re.search` does for the web-folder pattern: leftmost match. -/
def searchWeb : List Char → Option (List Char)
  | [] => none
  | c :: cs =>
    match matchWebAt (c :: cs) with
    | some ds => some ds
    | none => searchWeb cs

/-- The context alternatives `(users|me|teams)` of the API pattern. -/
inductive CtxKind
  | users
  | me
  | teams
deriving DecidableEq, Repr

/-- Match `(albums|projects)/(\d+)`, returning the captured digits. -/
def tryKindLit (kind s : List Char) : Option (List Char) :=
  match matchLit kind s with
  | none => none
  | some r1 =>
    match r1 with
    | '/' :: r2 =>
      let ds := r2.takeWhile isDigitC
      if ds.isEmpty then none else some ds
    | _ => none

/-- Alternation `(albums|projects)` followed by `/(\d+)`. -/
def matchKindTail (s : List Char) : Option (List Char) :=
  match tryKindLit albumsLit s with
  | some ds => some ds
  | none => tryKindLit projectsLit s

/-- The tail `(?:/(\d+))?/(albums|projects)/(\d+)` with the optional
context-id group taken (greedy first attempt). -/
def matchApiWithId (s : List Char) : Option (Option (List Char) × List Char) :=
  match s with
  | '/' :: rest =>
    let ds := rest.takeWhile isDigitC
    if ds.isEmpty then none
    else
      match rest.dropWhile isDigitC with
      | '/' :: r2 =>
        match matchKindTail r2 with
        | some fid => some (some ds, fid)
        | none => none
      | _ => none
  | _ => none

/-- The same tail with the optional group skipped. -/
def matchApiNoId (s : List Char) : Option (Option (List Char) × List Char) :=
  match s with
  | '/' :: r2 =>
    match matchKindTail r2 with
    | some fid => some (none, fid)
    | none => none
  | _ => none

/-- The tail `(?:/(\d+))?/(albums|projects)/(\d+)`: greedy option, then backtrack. -/
def matchApiAfterCtx (s : List Char) : Option (Option (List Char) × List Char) :=
  match matchApiWithId s with
  | some r => some r
  | none => matchApiNoId s

/-- One context alternative of the `uploader.py` API pattern. -/
def tryCtx (kw : List Char) (k : CtxKind) (rest : List Char) :
    Option (CtxKind × Option (List Char) × List Char) :=
  match matchLit kw rest with
  | none => none
  | some afterKw =>
    match matchApiAfterCtx afterKw with
    | some (cid, fid) => some (k, cid, fid)
    | none => none

/-- The full `uploader.py` API pattern at one position. -/
def matchApiAt (s : List Char) : Option (CtxKind × Option (List Char) × List Char) :=
  match s with
  | '/' :: rest =>
    match tryCtx usersLit CtxKind.users rest with
    | some r => some r
    | none =>
      match tryCtx meLit CtxKind.me rest with
      | some r => some r
      | none => tryCtx teamsLit CtxKind.teams rest
  | _ => none

/-- Search as `re.search` does for the `uploader.py` API pattern. -/
def searchApi : List Char → Option (CtxKind × Option (List Char) × List Char)
  | [] => none
  | c :: cs =>
    match matchApiAt (c :: cs) with
    | some r => some r
    | none => searchApi cs

/-- Function `extract_vimeo_folder_info_from_uri` from `uploader.py`: returns
`(folder_id, user_id, team_id)`.  A non-string argument (modelled as
`none`) fails the `isinstance(vimeo_uri, str)` guard and yields
`(None, None, None)`. -/
def extract_vimeo_folder_info (uri : Option String) :
    Option String × Option String × Option String :=
  match uri with
  | none => (none, none, none)
  | some s =>
    match searchWeb s.data with
    | some folderId => (some (String.mk folderId), none, none)
    | none =>
      match searchApi s.data with
      | some (ctx, cid, fid) =>
        let userId := match ctx with
          | CtxKind.users => cid.map String.mk
          | _ => none
        let teamId := match ctx with
          | CtxKind.teams => cid.map String.mk
          | _ => none
        (some (String.mk fid), userId, teamId)
      | none => (none, none, none)

/-- Consume a `users/\d+` or `teams/\d+` style context of the `upload.py` pattern:
consume `/` followed by a nonempty digit run. -/
def consumeSlashDigits : List Char → Option (List Char)
  | '/' :: r =>
    let ds := r.takeWhile isDigitC
    if ds.isEmpty then none else some (r.dropWhile isDigitC)
  | _ => none

/-- One alternative of `(?:users/\d+|me|teams/\d+)` followed by
`/(albums|projects)/(\d+)` in the `upload.py` pattern. -/
def tryAlbumCtx (kw : List Char) (needsId : Bool) (rest : List Char) :
    Option (List Char) :=
  match matchLit kw rest with
  | none => none
  | some afterKw =>
    match (if needsId then consumeSlashDigits afterKw else some afterKw) with
    | none => none
    | some afterCtx =>
      match afterCtx with
      | '/' :: r2 => matchKindTail r2
      | _ => none

/-- The full `upload.py` API pattern at one position. -/
def matchAlbumApiAt (s : List Char) : Option (List Char) :=
  match s with
  | '/' :: rest =>
    match tryAlbumCtx usersLit true rest with
    | some r => some r
    | none =>
      match tryAlbumCtx meLit false rest with
      | some r => some r
      | none => tryAlbumCtx teamsLit true rest
  | _ => none

/-- Search as `re.search` does for the `upload.py` API pattern. -/
def searchAlbumApi : List Char → Option (List Char)
  | [] => none
  | c :: cs =>
    match matchAlbumApiAt (c :: cs) with
    | some r => some r
    | none => searchAlbumApi cs

/-- Function `extract_vimeo_album_id_from_uri` from `upload.py`.  This variant has
no `isinstance` guard, so calling it with a non-string argument (modelled
as `none`) raises `TypeError` inside `re.search`; the exception is
modelled with `Except.error`. -/
def extract_vimeo_album_id (uri : Option String) : Except String (Option String) :=
  match uri with
  | none => Except.error "TypeError: expected string or bytes-like object"
  | some s =>
    match searchWeb s.data with
    | some ds => Except.ok (some (String.mk ds))
    | none =>
      match searchAlbumApi s.data with
      | some ds => Except.ok (some (String.mk ds))
      | none => Except.ok none

/-! ### Credential pool loading (`ZOOM_ACCOUNTS_CONFIG` in `zoom.py`)

The scripts probe `ZOOM_ACCOUNT_A_*` .. `ZOOM_ACCOUNT_Z_*` environment
variables in order and `break` at the first letter whose three fields are
not all present and non-empty (Python truthiness of `os.getenv`). -/

structure ZoomAccount where
  name : String
  account_id : String
  client_id : String
  client_secret : String
deriving DecidableEq, Repr

/-- Python truthiness of an `os.getenv` result: present and non-empty. -/
def truthyEnv : Option String → Bool
  | none => false
  | some s => !(s = "")

/-- Python `chr(64 + i)`: the letter of the `i`-th account (`1 ↦ 'A'`). -/
def accountLetter (i : Nat) : Char := Char.ofNat (64 + i)

/-- The environment-variable name for one field of account `i`, e.g.
`acctField 1 "_ACCOUNT_ID" = "ZOOM_ACCOUNT_A_ACCOUNT_ID"`. -/
def acctField (i : Nat) (field : String) : String :=
  "ZOOM_ACCOUNT_" ++ String.mk [accountLetter i] ++ field

/-- The check `if account_id and client_id and client_secret` for account `i`. -/
def acctComplete (env : String → Option String) (i : Nat) : Bool :=
  truthyEnv (env (acctField i "_ACCOUNT_ID"))
    && truthyEnv (env (acctField i "_CLIENT_ID"))
    && truthyEnv (env (acctField i "_CLIENT_SECRET"))

/-- The dict appended to `ZOOM_ACCOUNTS_CONFIG` for account `i`. -/
def mkAccount (env : String → Option String) (i : Nat) : ZoomAccount :=
  { name := "Account_" ++ String.mk [accountLetter i]
    account_id := (env (acctField i "_ACCOUNT_ID")).getD ""
    client_id := (env (acctField i "_CLIENT_ID")).getD ""
    client_secret := (env (acctField i "_CLIENT_SECRET")).getD "" }

/-- The loading loop from letter `i`, with `fuel` letters remaining:
append while complete, `break` at the first incomplete letter. -/
def loadFrom (env : String → Option String) : Nat → Nat → List ZoomAccount
  | _, 0 => []
  | i, fuel + 1 =>
    if acctComplete env i then mkAccount env i :: loadFrom env (i + 1) fuel
    else []

/-- The list `ZOOM_ACCOUNTS_CONFIG`: `for i in range(1, 27)` with `break`. -/
def loadZoomAccounts (env : String → Option String) : List ZoomAccount :=
  loadFrom env 1 26

/-! ### Recording selection (`get_meeting_recordings`)

Given the provider's `recording_files` list, the code returns the
`download_url` of the first file with `file_type == "MP4" and
file_extension == "MP4"`; failing that, the `download_url` of the first
file whose `download_url` is truthy; failing that, `None`. -/

structure RecordingFile where
  file_type : String
  file_extension : String
  /-- Here `none` models an absent `download_url` key; `some ""` a present but
  empty one (both are falsy for `record_file.get("download_url")`). -/
  download_url : Option String
deriving DecidableEq, Repr

/-- The exact-match condition of the first selection loop. -/
def isMp4File (f : RecordingFile) : Bool :=
  f.file_type == "MP4" && f.file_extension == "MP4"

/-- Truthiness of `record_file.get("download_url")`. -/
def hasTruthyUrl (f : RecordingFile) : Bool :=
  match f.download_url with
  | some u => !(u = "")
  | none => false

/-- The selection logic of `get_meeting_recordings` over the returned file
list (an empty list also models an absent `recording_files` key).  The
first loop reads `record_file["download_url"]` unconditionally, which
raises `KeyError` if the matching file has no such key; that is modelled
with `Except.error`. -/
def selectRecording (files : List RecordingFile) : Except String (Option String) :=
  if files.isEmpty then Except.ok none
  else
    match files.find? isMp4File with
    | some f =>
      match f.download_url with
      | some u => Except.ok (some u)
      | none => Except.error "KeyError: download_url"
    | none =>
      match files.find? hasTruthyUrl with
      | some f => Except.ok f.download_url
      | none => Except.ok none

/-! ### The asset-locating loop of `process_meeting_download`

`for account_config in ZOOM_ACCOUNTS_CONFIG:` request a token; if a token
was obtained, query the recordings; `break` on the first download URL.
The two oracles stand for the two network calls; the pair of counters
records how many of each were issued. -/

def locate (tokenOf : ZoomAccount → Option String)
    (lookupOf : ZoomAccount → String → Option String) :
    List ZoomAccount → Option (String × ZoomAccount × String) × Nat × Nat
  | [] => (none, 0, 0)
  | acct :: rest =>
    match tokenOf acct with
    | none =>
      let r := locate tokenOf lookupOf rest
      (r.1, r.2.1 + 1, r.2.2)
    | some tok =>
      match lookupOf acct tok with
      | some url => (some (url, acct, tok), 1, 1)
      | none =>
        let r := locate tokenOf lookupOf rest
        (r.1, r.2.1 + 1, r.2.2 + 1)

/-! ### The fetch flow (`process_meeting_download` in `zoom.py` /
`zoom_upload_new.py`) -/

structure MeetingEntry where
  meeting_id : String
  vimeo_uri : String
  desired_filename : String
deriving DecidableEq, Repr

inductive FetchOutcome
  | skipped
  | downloaded
  | downloadFailed
  | notFound
deriving DecidableEq, Repr

/-- Network/filesystem call counts of one fetch. -/
structure FetchStats where
  tokenCalls : Nat
  lookupCalls : Nat
  downloadCalls : Nat
deriving DecidableEq, Repr

/-- The ambient effects of the fetch flow, as oracles. -/
structure FetchEnv where
  fileExists : String → Bool
  tokenOf : ZoomAccount → Option String
  lookupOf : String → ZoomAccount → String → Option String
  downloadOk : String → String → Bool

/-- Function `process_meeting_download`: normalize the name, skip when the local
file exists, otherwise probe the pool and download on a hit. -/
def processMeetingDownload (env : FetchEnv) (pool : List ZoomAccount)
    (entry : MeetingEntry) : FetchOutcome × FetchStats :=
  let desired := normalizeName entry.desired_filename
  let outputPath := osJoin DOWNLOAD_DIR desired
  if env.fileExists outputPath then (FetchOutcome.skipped, ⟨0, 0, 0⟩)
  else
    match locate env.tokenOf (fun a t => env.lookupOf entry.meeting_id a t) pool with
    | (some (url, _, tok), tc, lc) =>
      if env.downloadOk url tok then (FetchOutcome.downloaded, ⟨tc, lc, 1⟩)
      else (FetchOutcome.downloadFailed, ⟨tc, lc, 1⟩)
    | (none, tc, lc) => (FetchOutcome.notFound, ⟨tc, lc, 0⟩)

/-! ### The publish flow (`uploader.py`) -/

/-- Result of `client.upload`: a URI, a falsy response, or an exception. -/
inductive UploadAttempt
  | uri (u : String)
  | noUri
  | raises (e : String)

/-- Result of `client.put` on the folder-assignment path. -/
inductive PutOutcome
  | status (code : Nat)
  | raises (e : String)

/-- The ambient effects of the publish flow, as oracles. -/
structure VimeoEnv where
  fileExists : String → Bool
  upload : String → UploadAttempt
  put : String → PutOutcome

/-- Function `upload_video_to_vimeo` from `uploader.py`: returns
`(success, message, video_uri)`.  After a successful upload, a provided
folder id triggers a `PUT` on the user-, team- or me-scoped path; only
status 204 counts as success. -/
def upload_video_to_vimeo (env : VimeoEnv) (filePath : String)
    (folderId userId teamId : Option String) : Bool × String × Option String :=
  if env.fileExists filePath = false then (false, "Local file not found", none)
  else
    match env.upload filePath with
    | UploadAttempt.raises e => (false, "Vimeo upload failed: " ++ e, none)
    | UploadAttempt.noUri =>
      (false, "Failed to initiate Vimeo upload (no URI returned)", none)
    | UploadAttempt.uri videoUri =>
      let videoId := lastSegment videoUri
      match folderId with
      | none =>
        (true, "Upload successful, no folder specified (uploaded to root)",
          some videoUri)
      | some fid =>
        let apiPath :=
          match userId with
          | some uid => "/users/" ++ uid ++ "/projects/" ++ fid ++ "/videos/" ++ videoId
          | none =>
            match teamId with
            | some tid => "/teams/" ++ tid ++ "/projects/" ++ fid ++ "/videos/" ++ videoId
            | none => "/me/projects/" ++ fid ++ "/videos/" ++ videoId
        match env.put apiPath with
        | PutOutcome.raises e =>
          (false, "Error adding video to folder: " ++ e, some videoUri)
        | PutOutcome.status c =>
          if c = 204 then
            (true, "Upload and folder addition successful", some videoUri)
          else
            (false, "Failed to add video " ++ videoUri ++ " to folder " ++ fid
              ++ ". Status: " ++ toString c, some videoUri)

/-- One worksheet row in the normalized form read by `uploader.py`. -/
structure UploadEntry where
  meeting_id : String
  vimeo_uri : String
  desired_filename : String
  zoom_download_status : String
  vimeo_upload_status : String
deriving DecidableEq, Repr

/-- The per-item result dict produced by `process_vimeo_upload`. -/
structure UploadRunResult where
  meeting_id : String
  upload_status : String
  vimeo_uri : Option String
  message : String
deriving DecidableEq, Repr

/-- Function `process_vimeo_upload` from `uploader.py`. -/
def process_vimeo_upload (env : VimeoEnv) (entry : UploadEntry) : UploadRunResult :=
  let desired := normalizeName entry.desired_filename
  let localPath := osJoin DOWNLOAD_DIR desired
  if entry.vimeo_upload_status = "uploaded" ∧ env.fileExists localPath = true then
    ⟨entry.meeting_id, "uploaded", some entry.vimeo_uri, "skipped - already uploaded"⟩
  else if env.fileExists localPath = false then
    ⟨entry.meeting_id, "failed", none, "skipped - local file not found"⟩
  else
    match extract_vimeo_folder_info (some entry.vimeo_uri) with
    | (folderId, userId, teamId) =>
      match upload_video_to_vimeo env localPath folderId userId teamId with
      | (ok, msg, newUri) =>
        if ok then
          ⟨entry.meeting_id, "uploaded",
            some (match newUri with
              | some u => if u = "" then entry.vimeo_uri else u
              | none => entry.vimeo_uri),
            msg⟩
        else ⟨entry.meeting_id, "failed", some entry.vimeo_uri, msg⟩

/-- The selection filter of `uploader.py`'s `main`: an item is (re)uploaded
when the local file exists and its status is not `"uploaded"`. -/
def uploaderShouldUpload (status : String) (fileOnDisk : Bool) : Bool :=
  fileOnDisk && !(status = "uploaded")

/-! ### Batch collection

`uploader.py`: `upload_results = list(executor.map(process_vimeo_upload,
meetings_for_upload))` — an exception raised by any worker is re-raised
when its result is retrieved, so the whole collection aborts with the
first (in item order) exception and no result list is produced.

`zoom_upload_new.py`: each `future.result()` is wrapped in its own
`try/except`, so a worker's exception is caught and logged and the other
futures are unaffected; the boolean results are individually inspected
but never collected. -/

def runAllUploads (proc : UploadEntry → Except String UploadRunResult) :
    List UploadEntry → Except String (List UploadRunResult)
  | [] => Except.ok []
  | e :: es =>
    match proc e with
    | Except.error msg => Except.error msg
    | Except.ok r =>
      match runAllUploads proc es with
      | Except.error msg => Except.error msg
      | Except.ok rs => Except.ok (r :: rs)

/-- The `try: future.result() except:` handler around one future. -/
def handleFuture (r : Except String Bool) : Option Bool :=
  match r with
  | Except.ok b => some b
  | Except.error _ => none

/-- The result-draining loop of `zoom_upload_new.py`'s `__main__`. -/
def zoomNewMainLoop (proc : MeetingEntry → Except String Bool)
    (items : List MeetingEntry) : List (Option Bool) :=
  items.map (fun i => handleFuture (proc i))

/-! ### Worksheet reading and writing (`uploader.py`'s `main`)

A row is a list of `(header, value)` cells.  Reading keeps only the five
recognized fields (stripped); writing emits, for every field name, the
corresponding entry field, or `""` for a header the entry does not carry —
`entry.get(..., "")` in the source. -/

def Row : Type := List (String × String)

/-- Access `row[h]` / `row.get(h, "")`: value of the first cell under header `h`
(headers are validated before the direct accesses in the source, so the
empty-string default only models `.get`). -/
def rowGet (r : Row) (h : String) : String :=
  match r with
  | [] => ""
  | kv :: rest => if kv.1 = h then kv.2 else rowGet rest h

/-- The entry built from one CSV row in `uploader.py`'s `main`. -/
def readEntry (r : Row) : UploadEntry :=
  { meeting_id := pyStrip (rowGet r "Meeting ID")
    vimeo_uri := pyStrip (rowGet r "Vimeo URI")
    desired_filename := pyStrip (rowGet r "File Name")
    zoom_download_status := pyStrip (rowGet r "zoom_download_status")
    vimeo_upload_status := pyStrip (rowGet r "vimeo_upload_status") }

/-- The header-to-field mapping of the write-back loop: the source's
if-chain maps the five known headers to entry keys, and any other header
falls through to `entry.get(header, "")` — so a header that is literally
one of the entry's own keys (`meeting_id`, `vimeo_uri`,
`desired_filename`; the two status keys are already caught by the chain)
yields that field's value, and every other header yields `""`. -/
def entryValueFor (e : UploadEntry) (h : String) : String :=
  if h = "Meeting ID" then e.meeting_id
  else if h = "Vimeo URI" then e.vimeo_uri
  else if h = "File Name" then e.desired_filename
  else if h = "zoom_download_status" then e.zoom_download_status
  else if h = "vimeo_upload_status" then e.vimeo_upload_status
  else if h = "meeting_id" then e.meeting_id
  else if h = "vimeo_uri" then e.vimeo_uri
  else if h = "desired_filename" then e.desired_filename
  else ""

/-- The list `csv_fieldnames`: the original headers, with `vimeo_upload_status`
appended when absent. -/
def writeFields (headers : List String) : List String :=
  if "vimeo_upload_status" ∈ headers then headers
  else headers ++ ["vimeo_upload_status"]

/-- The dict `row_to_write` for one entry. -/
def writeRow (fns : List String) (e : UploadEntry) : Row :=
  fns.map (fun h => (h, entryValueFor e h))

/-- The five headers the write-back loop recognizes. -/
def recognizedHeaders : List String :=
  ["Meeting ID", "Vimeo URI", "File Name", "zoom_download_status",
   "vimeo_upload_status"]

/-- All headers whose written cell is not forced to `""`: the five
recognized display names plus the three entry keys reachable through the
`entry.get(header, "")` fallthrough. -/
def passthroughHeaders : List String :=
  recognizedHeaders ++ ["meeting_id", "vimeo_uri", "desired_filename"]

/-- Merging one `RunResult` back into its worksheet entry (`uploader.py`
lines updating `all_meetings_data`): the status is always overwritten, the
URI only when the result carries a truthy one. -/
def applyResult (e : UploadEntry) (r : UploadRunResult) : UploadEntry :=
  { e with
    vimeo_upload_status := r.upload_status
    vimeo_uri :=
      match r.vimeo_uri with
      | some u => if u = "" then e.vimeo_uri else u
      | none => e.vimeo_uri }

/-! ## Theorems -/

/-! ### C1: ordered credential probing -/

/-- C1.  For every credential pool and every work item, the locator probes
accounts strictly in configured order: when the first `k-1` accounts yield
a token but fail lookup and account `k` succeeds, exactly `k` token
exchanges and `k` lookups are performed, account `k`'s URL (and token) is
returned, and the accounts after `k` are never contacted (the result is
the same with them removed); when every account fails (either no token or
a failed lookup), the result is `none` after exactly one attempted token
exchange per account. -/
theorem locate_probe_order (tokenOf : ZoomAccount → Option String)
    (lookupOf : ZoomAccount → String → Option String) :
    (∀ pre acct post tok url,
      (∀ a ∈ pre, ∃ t, tokenOf a = some t ∧ lookupOf a t = none) →
      tokenOf acct = some tok → lookupOf acct tok = some url →
      locate tokenOf lookupOf (pre ++ acct :: post)
          = (some (url, acct, tok), pre.length + 1, pre.length + 1)
        ∧ locate tokenOf lookupOf (pre ++ acct :: post)
          = locate tokenOf lookupOf (pre ++ [acct]))
    ∧ (∀ pool,
      (∀ a ∈ pool, tokenOf a = none ∨ ∃ t, tokenOf a = some t ∧ lookupOf a t = none) →
      (locate tokenOf lookupOf pool).1 = none
        ∧ (locate tokenOf lookupOf pool).2.1 = pool.length) := by
  constructor
  · intro pre acct post tok url hpre htok hlook
    induction pre with
    | nil => simp [locate, htok, hlook]
    | cons a l ih =>
      obtain ⟨t, ht, hl⟩ := hpre a (List.mem_cons_self a l)
      have ihh := ih (fun b hb => hpre b (List.mem_cons_of_mem a hb))
      constructor
      · rw [List.cons_append]
        simp only [locate, ht, hl]
        rw [ihh.1]
        simp
      · rw [List.cons_append, List.cons_append]
        simp only [locate, ht, hl]
        rw [ihh.2]
  · intro pool hpool
    induction pool with
    | nil => simp [locate]
    | cons a l ih =>
      have ihh := ih (fun b hb => hpool b (List.mem_cons_of_mem a hb))
      rcases hpool a (List.mem_cons_self a l) with ht | ⟨t, ht, hl⟩
      · simp [locate, ht, ihh.1, ihh.2]
      · simp [locate, ht, hl, ihh.1, ihh.2]

def tokW : ZoomAccount → Option String := fun a => some ("tok_" ++ a.name)

def lookW : ZoomAccount → String → Option String := fun a _ =>
  if a.name = "Account_B" then some "https://dl.example/rec.mp4" else none

def lookFailW : ZoomAccount → String → Option String := fun _ _ => none

def acctA : ZoomAccount := ⟨"Account_A", "ida", "cida", "seca"⟩
def acctB : ZoomAccount := ⟨"Account_B", "idb", "cidb", "secb"⟩
def acctC : ZoomAccount := ⟨"Account_C", "idc", "cidc", "secc"⟩

/-- Witness for C1: with three accounts where account 2 is the first hit,
the loop stops after 2 token exchanges and 2 lookups; with a lookup oracle
that always fails, all 3 accounts are attempted and nothing is found. -/
theorem locate_probe_order_witness :
    (locate tokW lookW [acctA, acctB, acctC]
        = (some ("https://dl.example/rec.mp4", acctB, "tok_Account_B"), 2, 2)
      ∧ locate tokW lookW [acctA, acctB, acctC] = locate tokW lookW [acctA, acctB])
    ∧ (locate tokW lookFailW [acctA, acctB, acctC]).1 = none
    ∧ (locate tokW lookFailW [acctA, acctB, acctC]).2.1 = 3 := by
  refine ⟨?_, ?_⟩
  · have h := (locate_probe_order tokW lookW).1 [acctA] acctB [acctC]
      "tok_Account_B" "https://dl.example/rec.mp4"
      (by
        intro a ha
        have : a = acctA := by simpa using ha
        subst this
        exact ⟨"tok_Account_A", by decide, by decide⟩)
      (by decide) (by decide)
    simpa using h
  · exact (locate_probe_order tokW lookFailW).2 [acctA, acctB, acctC]
      (by
        intro a ha
        exact Or.inr ⟨"tok_" ++ a.name, rfl, rfl⟩)

/-! ### C5: skip when the local file already exists -/

/-- C5.  When the normalized local file already exists on disk,
`process_meeting_download` returns Skipped and performs zero network
calls: no token exchange, no lookup, no download. -/
theorem skip_existing_file (env : FetchEnv) (pool : List ZoomAccount)
    (entry : MeetingEntry)
    (h : env.fileExists (osJoin DOWNLOAD_DIR (normalizeName entry.desired_filename))
      = true) :
    processMeetingDownload env pool entry = (FetchOutcome.skipped, ⟨0, 0, 0⟩) := by
  simp [processMeetingDownload, h]

def fetchEnvW : FetchEnv :=
  { fileExists := fun p => p == "zoom_downloads/Intro.mp4"
    tokenOf := tokW
    lookupOf := fun _ a t => lookW a t
    downloadOk := fun _ _ => true }

/-- Witness for C5: the item `Intro` normalizes to
`zoom_downloads/Intro.mp4`, which exists, so the run is skipped with zero
calls even though the pool and oracles could succeed. -/
theorem skip_existing_file_witness :
    fetchEnvW.fileExists
        (osJoin DOWNLOAD_DIR (normalizeName "Intro")) = true
      ∧ processMeetingDownload fetchEnvW [acctA, acctB] ⟨"111", "", "Intro"⟩
        = (FetchOutcome.skipped, ⟨0, 0, 0⟩) :=
  ⟨by decide, skip_existing_file fetchEnvW [acctA, acctB] ⟨"111", "", "Intro"⟩ (by decide)⟩

/-! ### C7: recording-file selection -/

/-- C7.  `get_meeting_recordings` selects the first file whose
`file_type` and `file_extension` both equal `MP4` (returning its URL);
otherwise it falls back to the first file with a truthy (retrievable)
download URL; and when neither kind of file exists it reports no
downloadable recording (`None`). -/
theorem recording_selection :
    (∀ files f u, List.find? isMp4File files = some f → f.download_url = some u →
      selectRecording files = Except.ok (some u))
    ∧ (∀ files f, List.find? isMp4File files = none →
      List.find? hasTruthyUrl files = some f →
      selectRecording files = Except.ok f.download_url)
    ∧ (∀ files, List.find? isMp4File files = none →
      List.find? hasTruthyUrl files = none →
      selectRecording files = Except.ok none) := by
  refine ⟨?_, ?_, ?_⟩
  · intro files f u h1 h2
    cases files with
    | nil => simp at h1
    | cons a as => simp [selectRecording, h1, h2]
  · intro files f h1 h2
    cases files with
    | nil => simp at h2
    | cons a as => simp [selectRecording, h1, h2]
  · intro files h1 h2
    cases files with
    | nil => rfl
    | cons a as => simp [selectRecording, h1, h2]

def mp4File : RecordingFile := ⟨"MP4", "MP4", some "https://zoom.example/mp4"⟩
def audioFile : RecordingFile := ⟨"M4A", "M4A", some "https://zoom.example/m4a"⟩
def chatFile : RecordingFile := ⟨"CHAT", "TXT", none⟩

/-- Witness for C7: with `[audio, mp4]` the MP4 file's URL wins although
it is not first; with `[chat, audio]` the first truthy URL (the audio
file's) is chosen; with `[chat]` nothing is downloadable. -/
theorem recording_selection_witness :
    selectRecording [audioFile, mp4File] = Except.ok (some "https://zoom.example/mp4")
      ∧ selectRecording [chatFile, audioFile]
        = Except.ok (some "https://zoom.example/m4a")
      ∧ selectRecording [chatFile] = Except.ok none := by
  refine ⟨?_, ?_, ?_⟩
  · exact recording_selection.1 [audioFile, mp4File] mp4File
      "https://zoom.example/mp4" (by decide) (by decide)
  · have h := recording_selection.2.1 [chatFile, audioFile] audioFile
      (by decide) (by decide)
    simpa using h
  · exact recording_selection.2.2 [chatFile] (by decide) (by decide)

/-! ### C10: credential-pool loading stops at the first incomplete letter -/

theorem loadFrom_congr_fuel (env : String → Option String) {j : Nat}
    (hj : acctComplete env j = false) :
    ∀ fuel i, i ≤ j → j ≤ i + fuel →
      loadFrom env i fuel = loadFrom env i (j - i) := by
  intro fuel
  induction fuel with
  | zero =>
    intro i h1 h2
    have hij : j = i := by omega
    subst hij
    simp
  | succ n ih =>
    intro i h1 h2
    rcases Nat.eq_or_lt_of_le h1 with heq | hlt
    · subst heq
      have h0 : i - i = 0 := by omega
      rw [h0]
      show loadFrom env i (n + 1) = loadFrom env i 0
      simp [loadFrom, hj]
    · have hsub : j - i = (j - (i + 1)) + 1 := by omega
      rw [hsub]
      show loadFrom env i (n + 1) = loadFrom env i ((j - (i + 1)) + 1)
      by_cases hc : acctComplete env i = true
      · simp only [loadFrom, if_pos hc]
        rw [ih (i + 1) (by omega) (by omega)]
      · simp only [loadFrom, if_neg hc]

theorem loadFrom_length_le (env : String → Option String) :
    ∀ fuel i, (loadFrom env i fuel).length ≤ fuel := by
  intro fuel
  induction fuel with
  | zero => intro i; simp [loadFrom]
  | succ n ih =>
    intro i
    by_cases hc : acctComplete env i = true
    · simp only [loadFrom, if_pos hc, List.length_cons]
      exact Nat.succ_le_succ (ih (i + 1))
    · simp [loadFrom, if_neg hc]

theorem loadFrom_names (env : String → Option String) :
    ∀ fuel i, (loadFrom env i fuel).map (fun a => a.name)
      = (List.range' i (loadFrom env i fuel).length).map
          (fun k => "Account_" ++ String.mk [accountLetter k]) := by
  intro fuel
  induction fuel with
  | zero => intro i; simp [loadFrom]
  | succ n ih =>
    intro i
    by_cases hc : acctComplete env i = true
    · simp only [loadFrom, if_pos hc, List.map_cons, List.length_cons,
        List.range'_succ, ih (i + 1)]
      rfl
    · simp [loadFrom, if_neg hc]

/-- C10.  Credential loading probes the lettered entries in order and
stops at the first letter `j` missing any of the three required fields:
the pool equals the truncated run over letters before `j`, has fewer than
`j` entries, and consists of consecutively lettered accounts starting at
`Account_A` — so no letter at or after `j` is ever added, even when it is
fully configured. -/
theorem credential_pool_loading (env : String → Option String) (j : Nat)
    (h1 : 1 ≤ j) (h2 : j ≤ 26)
    (hmiss : env (acctField j "_ACCOUNT_ID") = none
      ∨ env (acctField j "_CLIENT_ID") = none
      ∨ env (acctField j "_CLIENT_SECRET") = none) :
    loadZoomAccounts env = loadFrom env 1 (j - 1)
      ∧ (loadZoomAccounts env).length < j
      ∧ (loadZoomAccounts env).map (fun a => a.name)
        = (List.range' 1 (loadZoomAccounts env).length).map
            (fun k => "Account_" ++ String.mk [accountLetter k]) := by
  have hj : acctComplete env j = false := by
    rcases hmiss with h | h | h <;> simp [acctComplete, h, truthyEnv]
  have hmain : loadZoomAccounts env = loadFrom env 1 (j - 1) := by
    have := loadFrom_congr_fuel env hj 26 1 h1 (by omega)
    simpa [loadZoomAccounts] using this
  refine ⟨hmain, ?_, loadFrom_names env 26 1⟩
  rw [hmain]
  have := loadFrom_length_le env (j - 1) 1
  omega

def envW10 : String → Option String := fun k =>
  if k = "ZOOM_ACCOUNT_A_ACCOUNT_ID" then some "aid1"
  else if k = "ZOOM_ACCOUNT_A_CLIENT_ID" then some "cid1"
  else if k = "ZOOM_ACCOUNT_A_CLIENT_SECRET" then some "sec1"
  else if k = "ZOOM_ACCOUNT_C_ACCOUNT_ID" then some "aid3"
  else if k = "ZOOM_ACCOUNT_C_CLIENT_ID" then some "cid3"
  else if k = "ZOOM_ACCOUNT_C_CLIENT_SECRET" then some "sec3"
  else none

/-! ### C3: assignment failure after a successful upload

The claim says such a work item ends in a PartialSuccess outcome distinct
from total failure and is not re-uploaded on a future run.  The code
instead returns `success = False` from `upload_video_to_vimeo`, records
`upload_status = "failed"` — the same terminal status as a failed upload —
keeps the original worksheet URI, and the selection filter of `main`
re-uploads any existing file whose status is not `"uploaded"`. -/

/-- Oracles for a run whose upload succeeds but whose folder-assignment
`PUT` answers 500. -/
def envAssignFail : VimeoEnv :=
  { fileExists := fun _ => true
    upload := fun _ => UploadAttempt.uri "/videos/999"
    put := fun _ => PutOutcome.status 500 }

/-- Oracles for a run whose upload itself fails (falsy response). -/
def envUploadFail : VimeoEnv :=
  { fileExists := fun _ => true
    upload := fun _ => UploadAttempt.noUri
    put := fun _ => PutOutcome.status 204 }

def entryC3 : UploadEntry :=
  ⟨"111", "https://vimeo.com/manage/folders/42", "Intro", "", ""⟩

/-- Counterexample to C3: with the upload succeeding and the assignment
`PUT` answering 500, the work item's status is `"failed"` — identical to
the status produced by a total upload failure, so the outcome is not a
distinct PartialSuccess — the original reference is kept, and the
selection filter marks the item for re-upload on a future run. -/
theorem assign_failure_counterexample :
    (process_vimeo_upload envAssignFail entryC3).upload_status = "failed"
      ∧ (process_vimeo_upload envUploadFail entryC3).upload_status = "failed"
      ∧ (process_vimeo_upload envAssignFail entryC3).upload_status
        = (process_vimeo_upload envUploadFail entryC3).upload_status
      ∧ (process_vimeo_upload envAssignFail entryC3).vimeo_uri
        = some entryC3.vimeo_uri
      ∧ uploaderShouldUpload
          (process_vimeo_upload envAssignFail entryC3).upload_status true = true := by
  refine ⟨rfl, rfl, rfl, rfl, rfl⟩

/-- C3 as amended.  When the upload succeeds but the subsequent
container-assignment call returns a non-204 status, the work item ends
with status `"failed"` — the same terminal status as a total upload
failure, not a distinct PartialSuccess — while the message names the
assignment failure and the uploaded video, `upload_video_to_vimeo` still
reports the uploaded URI in its third component, the worksheet keeps the
original reference, and the item is selected for re-upload on a future
run. -/
theorem assign_failure_outcome (env : VimeoEnv) (entry : UploadEntry)
    (videoUri fid : String) (uid tid : Option String) (c : Nat)
    (hstatus : entry.vimeo_upload_status ≠ "uploaded")
    (hfile : env.fileExists
      (osJoin DOWNLOAD_DIR (normalizeName entry.desired_filename)) = true)
    (hextract : extract_vimeo_folder_info (some entry.vimeo_uri)
      = (some fid, uid, tid))
    (hup : env.upload
      (osJoin DOWNLOAD_DIR (normalizeName entry.desired_filename))
      = UploadAttempt.uri videoUri)
    (hput : ∀ p, env.put p = PutOutcome.status c)
    (hc : c ≠ 204) :
    (process_vimeo_upload env entry).upload_status = "failed"
      ∧ (process_vimeo_upload env entry).message
        = "Failed to add video " ++ videoUri ++ " to folder " ++ fid
          ++ ". Status: " ++ toString c
      ∧ (process_vimeo_upload env entry).vimeo_uri = some entry.vimeo_uri
      ∧ (upload_video_to_vimeo env
          (osJoin DOWNLOAD_DIR (normalizeName entry.desired_filename))
          (some fid) uid tid).2.2 = some videoUri
      ∧ uploaderShouldUpload (process_vimeo_upload env entry).upload_status true
        = true := by
  have hupl : upload_video_to_vimeo env
      (osJoin DOWNLOAD_DIR (normalizeName entry.desired_filename))
      (some fid) uid tid
      = (false, "Failed to add video " ++ videoUri ++ " to folder " ++ fid
          ++ ". Status: " ++ toString c, some videoUri) := by
    cases uid <;> cases tid <;>
      simp [upload_video_to_vimeo, hfile, hup, hput, hc]
  have hproc : process_vimeo_upload env entry
      = ⟨entry.meeting_id, "failed", some entry.vimeo_uri,
        "Failed to add video " ++ videoUri ++ " to folder " ++ fid
          ++ ". Status: " ++ toString c⟩ := by
    simp only [process_vimeo_upload, hextract, hupl]
    rw [if_neg (fun hcontra => hstatus hcontra.1), if_neg (by simp [hfile])]
    simp
  refine ⟨by rw [hproc], by rw [hproc], by rw [hproc], by rw [hupl], ?_⟩
  rw [hproc]
  rfl

/-- Witness for the amended C3, at the concrete assignment-failure run. -/
theorem assign_failure_outcome_witness :
    (process_vimeo_upload envAssignFail entryC3).upload_status = "failed"
      ∧ (process_vimeo_upload envAssignFail entryC3).message
        = "Failed to add video /videos/999 to folder 42. Status: 500"
      ∧ (process_vimeo_upload envAssignFail entryC3).vimeo_uri
        = some entryC3.vimeo_uri
      ∧ (upload_video_to_vimeo envAssignFail
          (osJoin DOWNLOAD_DIR (normalizeName entryC3.desired_filename))
          (some "42") none none).2.2 = some "/videos/999"
      ∧ uploaderShouldUpload
          (process_vimeo_upload envAssignFail entryC3).upload_status true
        = true :=
  assign_failure_outcome envAssignFail entryC3 "/videos/999" "42" none none 500
    (by decide) rfl (by decide) rfl (fun _ => rfl) (by decide)

/-! ### C4: an unexpected worker exception during batch collection

The claim says `runAll` still returns `M` RunResults with the exception
converted to a single Failed entry.  In `uploader.py` the exception is
instead re-raised by `list(executor.map(...))`, aborting collection; in
`zoom_upload_new.py` it is caught per future (siblings unaffected) but no
RunResult is produced for it. -/

def entryU1 : UploadEntry := ⟨"1", "", "a.mp4", "", ""⟩
def entryU2 : UploadEntry := ⟨"2", "", "b.mp4", "", ""⟩
def entryU3 : UploadEntry := ⟨"3", "", "c.mp4", "", ""⟩

/-- A worker that raises on item `"2"` and succeeds elsewhere. -/
def procBoom : UploadEntry → Except String UploadRunResult := fun e =>
  if e.meeting_id = "2" then Except.error "boom"
  else Except.ok ⟨e.meeting_id, "uploaded", none, "ok"⟩

def meetM1 : MeetingEntry := ⟨"1", "", "a.mp4"⟩
def meetM2 : MeetingEntry := ⟨"2", "", "b.mp4"⟩
def meetM3 : MeetingEntry := ⟨"3", "", "c.mp4"⟩

/-- The `zoom_upload_new.py` worker analogue raising on item `"2"`. -/
def procBoomB : MeetingEntry → Except String Bool := fun m =>
  if m.meeting_id = "2" then Except.error "boom" else Except.ok true

/-- Counterexample to C4: over three items of which exactly the second
raises, `uploader.py`'s collection aborts with the propagated exception —
it does not return three RunResults with one Failed entry. -/
theorem runAll_exception_counterexample :
    runAllUploads procBoom [entryU1, entryU2, entryU3] = Except.error "boom" := rfl

/-- C4 as amended.  When exactly one work item raises an unexpected
exception, `uploader.py`'s result collection (`list(executor.map(...))`)
re-raises it and produces no RunResult list at all, while
`zoom_upload_new.py`'s per-future `try/except` catches the exception so
that every other item's outcome is computed independently — but the
raising item yields no result there either. -/
theorem runAll_exception_behaviour
    (proc : UploadEntry → Except String UploadRunResult)
    (procB : MeetingEntry → Except String Bool)
    (pre post : List UploadEntry) (bad : UploadEntry)
    (preB postB : List MeetingEntry) (badB : MeetingEntry) (e eB : String)
    (hpre : ∀ i ∈ pre, ∃ r, proc i = Except.ok r)
    (hbad : proc bad = Except.error e)
    (hbadB : procB badB = Except.error eB) :
    runAllUploads proc (pre ++ bad :: post) = Except.error e
      ∧ zoomNewMainLoop procB (preB ++ badB :: postB)
        = preB.map (fun i => handleFuture (procB i))
          ++ none :: postB.map (fun i => handleFuture (procB i)) := by
  constructor
  · have h1 : ∀ pre2 : List UploadEntry,
        (∀ i ∈ pre2, ∃ r, proc i = Except.ok r) →
        runAllUploads proc (pre2 ++ bad :: post) = Except.error e := by
      intro pre2
      induction pre2 with
      | nil => intro _; simp [runAllUploads, hbad]
      | cons a l ih =>
        intro hp
        obtain ⟨r, hr⟩ := hp a (List.mem_cons_self a l)
        rw [List.cons_append]
        simp [runAllUploads, hr,
          ih (fun b hb => hp b (List.mem_cons_of_mem a hb))]
    exact h1 pre hpre
  · simp [zoomNewMainLoop, List.map_append, handleFuture, hbadB]

/-- Witness for the amended C4, over three concrete items with the second
one raising. -/
theorem runAll_exception_behaviour_witness :
    runAllUploads procBoom ([entryU1] ++ entryU2 :: [entryU3])
        = Except.error "boom"
      ∧ zoomNewMainLoop procBoomB ([meetM1] ++ meetM2 :: [meetM3])
        = [some true, none, some true] := by
  have h := runAll_exception_behaviour procBoom procBoomB
    [entryU1] [entryU3] entryU2 [meetM1] [meetM3] meetM2 "boom" "boom"
    (by
      intro i hi
      have : i = entryU1 := by simpa using hi
      subst this
      exact ⟨⟨"1", "uploaded", none, "ok"⟩, rfl⟩)
    rfl rfl
  exact ⟨h.1, by rw [h.2]; rfl⟩

/-! ### C2 and C6: the URI resolver

Supporting lemmas: how the matchers behave on segment-structured inputs
whose digit groups are abstract. -/

theorem takeWhile_all_append {p : Char → Bool} {l : List Char}
    (h : ∀ c ∈ l, p c = true) (r : List Char) :
    (l ++ r).takeWhile p = l ++ r.takeWhile p := by
  induction l with
  | nil => simp
  | cons a as ih =>
    have ha := h a (List.mem_cons_self a as)
    simp [List.takeWhile_cons, ha, ih (fun c hc => h c (List.mem_cons_of_mem a hc))]

theorem dropWhile_all_append {p : Char → Bool} {l : List Char}
    (h : ∀ c ∈ l, p c = true) (r : List Char) :
    (l ++ r).dropWhile p = r.dropWhile p := by
  induction l with
  | nil => simp
  | cons a as ih =>
    have ha := h a (List.mem_cons_self a as)
    simp [List.dropWhile_cons, ha, ih (fun c hc => h c (List.mem_cons_of_mem a hc))]

theorem takeWhile_all_self {p : Char → Bool} {l : List Char}
    (h : ∀ c ∈ l, p c = true) : l.takeWhile p = l := by
  have := takeWhile_all_append h []
  simpa using this

theorem matchLit_append (lit rest : List Char) :
    matchLit lit (lit ++ rest) = some rest := by
  induction lit with
  | nil => rfl
  | cons a as ih => simp [matchLit, ih]

theorem isEmpty_false_of_ne_nil {l : List Char} (h : l ≠ []) :
    l.isEmpty = false := by
  cases l with
  | nil => exact absurd rfl h
  | cons a as => rfl

theorem digit_ne_v {c : Char} (h : isDigitC c = true) : c ≠ 'v' := by
  intro he
  subst he
  simp [isDigitC, Char.isDigit] at h

theorem no_v_digits {l : List Char} (h : ∀ c ∈ l, isDigitC c = true) :
    ∀ x ∈ l, x ≠ 'v' :=
  fun x hx => digit_ne_v (h x hx)

theorem no_v_append {l r : List Char} (hl : ∀ x ∈ l, x ≠ 'v')
    (hr : ∀ x ∈ r, x ≠ 'v') : ∀ x ∈ l ++ r, x ≠ 'v' := by
  intro x hx
  rcases List.mem_append.mp hx with h | h
  · exact hl x h
  · exact hr x h

theorem no_v_cons {c : Char} {l : List Char} (hc : c ≠ 'v')
    (hl : ∀ x ∈ l, x ≠ 'v') : ∀ x ∈ c :: l, x ≠ 'v' := by
  intro x hx
  rcases List.mem_cons.mp hx with h | h
  · exact h ▸ hc
  · exact hl x h

theorem matchWebAt_ne_head {c : Char} {cs : List Char} (h : c ≠ 'v') :
    matchWebAt (c :: cs) = none := by
  simp [matchWebAt, webLit, matchLit, h]

theorem searchWeb_cons (c : Char) (cs : List Char) :
    searchWeb (c :: cs)
      = match matchWebAt (c :: cs) with
        | some ds => some ds
        | none => searchWeb cs := rfl

theorem searchWeb_append_no_v {l : List Char} (h : ∀ x ∈ l, x ≠ 'v')
    (s : List Char) : searchWeb (l ++ s) = searchWeb s := by
  induction l with
  | nil => rfl
  | cons a as ih =>
    rw [List.cons_append, searchWeb_cons,
      matchWebAt_ne_head (h a (List.mem_cons_self a as))]
    exact ih (fun x hx => h x (List.mem_cons_of_mem a hx))

theorem searchWeb_none_no_v {l : List Char} (h : ∀ x ∈ l, x ≠ 'v') :
    searchWeb l = none := by
  have := searchWeb_append_no_v h []
  simpa using this

theorem matchWebAt_hit {n : List Char} (hd : ∀ c ∈ n, isDigitC c = true)
    (hne : n ≠ []) : matchWebAt (webLit ++ n) = some n := by
  unfold matchWebAt
  rw [matchLit_append]
  simp [takeWhile_all_self hd, isEmpty_false_of_ne_nil hne]

theorem searchWeb_hit {n : List Char} (hd : ∀ c ∈ n, isDigitC c = true)
    (hne : n ≠ []) : searchWeb (webLit ++ n) = some n := by
  rw [show webLit ++ n
      = 'v' :: (['i','m','e','o','.','c','o','m','/','m','a','n','a','g','e',
          '/','f','o','l','d','e','r','s','/'] ++ n) from rfl,
    searchWeb_cons]
  rw [show ('v' :: (['i','m','e','o','.','c','o','m','/','m','a','n','a','g',
        'e','/','f','o','l','d','e','r','s','/'] ++ n)) = webLit ++ n from rfl,
    matchWebAt_hit hd hne]

theorem matchKindTail_albums {a : List Char} (ha : ∀ c ∈ a, isDigitC c = true)
    (hne : a ≠ []) : matchKindTail (albumsLit ++ ('/' :: a)) = some a := by
  unfold matchKindTail tryKindLit
  rw [matchLit_append]
  simp [takeWhile_all_self ha, isEmpty_false_of_ne_nil hne]

theorem matchKindTail_projects {p : List Char}
    (hp : ∀ c ∈ p, isDigitC c = true) (hne : p ≠ []) :
    matchKindTail (projectsLit ++ ('/' :: p)) = some p := by
  unfold matchKindTail
  rw [show tryKindLit albumsLit (projectsLit ++ ('/' :: p)) = none from rfl]
  unfold tryKindLit
  rw [matchLit_append]
  simp [takeWhile_all_self hp, isEmpty_false_of_ne_nil hne]

theorem matchApiWithId_digits {t : List Char}
    (ht : ∀ c ∈ t, isDigitC c = true) (hne : t ≠ []) (z : List Char) :
    matchApiWithId ('/' :: (t ++ ('/' :: z)))
      = match matchKindTail z with
        | some fid => some (some t, fid)
        | none => none := by
  have hslash : isDigitC '/' = false := by decide
  have h1 : (t ++ '/' :: z).takeWhile isDigitC = t := by
    rw [takeWhile_all_append ht]
    simp [List.takeWhile_cons, hslash]
  have h2 : (t ++ '/' :: z).dropWhile isDigitC = '/' :: z := by
    rw [dropWhile_all_append ht]
    simp [List.dropWhile_cons, hslash]
  unfold matchApiWithId
  simp only [h1, h2, isEmpty_false_of_ne_nil hne, Bool.false_eq_true,
    if_false]

/-! #### C2: the recognized destination shapes resolve as specified -/

def schemeLit : List Char := ['h','t','t','p',':','/','/']

/-- C2.  The resolver of `uploader.py` maps each recognized shape to the
specified descriptor: a web folder URL `…/manage/folders/N` yields folder
`N` with no owner scope; `/teams/T/projects/P` yields container `P` owned
by team `T`; `/users/U/albums/A` yields container `A` owned by user `U`;
`/me/projects/P` yields container `P` with no owner scope; and whenever
the web-folder pattern matches anywhere in the input it wins (it is tried
first), regardless of any API-style match. -/
theorem resolver_patterns :
    (∀ n : List Char, (∀ c ∈ n, isDigitC c = true) → n ≠ [] →
      extract_vimeo_folder_info (some (String.mk (schemeLit ++ (webLit ++ n))))
        = (some (String.mk n), none, none))
    ∧ (∀ t p : List Char, (∀ c ∈ t, isDigitC c = true) → t ≠ [] →
        (∀ c ∈ p, isDigitC c = true) → p ≠ [] →
      extract_vimeo_folder_info (some (String.mk
          ('/' :: (teamsLit ++ ('/' :: (t ++ ('/' :: (projectsLit ++ ('/' :: p)))))))))
        = (some (String.mk p), none, some (String.mk t)))
    ∧ (∀ u a : List Char, (∀ c ∈ u, isDigitC c = true) → u ≠ [] →
        (∀ c ∈ a, isDigitC c = true) → a ≠ [] →
      extract_vimeo_folder_info (some (String.mk
          ('/' :: (usersLit ++ ('/' :: (u ++ ('/' :: (albumsLit ++ ('/' :: a)))))))))
        = (some (String.mk a), some (String.mk u), none))
    ∧ (∀ p : List Char, (∀ c ∈ p, isDigitC c = true) → p ≠ [] →
      extract_vimeo_folder_info (some (String.mk
          ('/' :: (meLit ++ ('/' :: (projectsLit ++ ('/' :: p)))))))
        = (some (String.mk p), none, none))
    ∧ (∀ (s : String) (ds : List Char), searchWeb s.data = some ds →
      extract_vimeo_folder_info (some s) = (some (String.mk ds), none, none)) := by
  refine ⟨?_, ?_, ?_, ?_, ?_⟩
  · intro n hd hne
    have hsw : searchWeb (schemeLit ++ (webLit ++ n)) = some n := by
      rw [searchWeb_append_no_v (by decide) (webLit ++ n)]
      exact searchWeb_hit hd hne
    simp [extract_vimeo_folder_info, hsw]
  · intro t p ht htne hp hpne
    set rest := teamsLit ++ ('/' :: (t ++ ('/' :: (projectsLit ++ ('/' :: p)))))
      with hrest
    have hnov : ∀ x ∈ '/' :: rest, x ≠ 'v' := by
      rw [hrest]
      exact no_v_cons (by decide)
        (no_v_append (by decide)
          (no_v_cons (by decide)
            (no_v_append (no_v_digits ht)
              (no_v_cons (by decide)
                (no_v_append (by decide)
                  (no_v_cons (by decide) (no_v_digits hp)))))))
    have hteams : tryCtx teamsLit CtxKind.teams rest
        = some (CtxKind.teams, some t, p) := by
      rw [hrest]
      unfold tryCtx
      rw [matchLit_append]
      simp only [matchApiAfterCtx,
        matchApiWithId_digits ht htne (projectsLit ++ ('/' :: p)),
        matchKindTail_projects hp hpne]
    have hapi : matchApiAt ('/' :: rest) = some (CtxKind.teams, some t, p) := by
      have hu : tryCtx usersLit CtxKind.users rest = none := by rw [hrest]; rfl
      have hm : tryCtx meLit CtxKind.me rest = none := by rw [hrest]; rfl
      simp only [matchApiAt, hu, hm, hteams]
    have hsa : searchApi ('/' :: rest) = some (CtxKind.teams, some t, p) := by
      unfold searchApi
      rw [hapi]
    simp [extract_vimeo_folder_info, searchWeb_none_no_v hnov, hsa]
  · intro u a hu hune ha hane
    set rest := usersLit ++ ('/' :: (u ++ ('/' :: (albumsLit ++ ('/' :: a)))))
      with hrest
    have hnov : ∀ x ∈ '/' :: rest, x ≠ 'v' := by
      rw [hrest]
      exact no_v_cons (by decide)
        (no_v_append (by decide)
          (no_v_cons (by decide)
            (no_v_append (no_v_digits hu)
              (no_v_cons (by decide)
                (no_v_append (by decide)
                  (no_v_cons (by decide) (no_v_digits ha)))))))
    have husers : tryCtx usersLit CtxKind.users rest
        = some (CtxKind.users, some u, a) := by
      rw [hrest]
      unfold tryCtx
      rw [matchLit_append]
      simp only [matchApiAfterCtx,
        matchApiWithId_digits hu hune (albumsLit ++ ('/' :: a)),
        matchKindTail_albums ha hane]
    have hapi : matchApiAt ('/' :: rest) = some (CtxKind.users, some u, a) := by
      simp only [matchApiAt, husers]
    have hsa : searchApi ('/' :: rest) = some (CtxKind.users, some u, a) := by
      unfold searchApi
      rw [hapi]
    simp [extract_vimeo_folder_info, searchWeb_none_no_v hnov, hsa]
  · intro p hp hpne
    set rest := meLit ++ ('/' :: (projectsLit ++ ('/' :: p))) with hrest
    have hnov : ∀ x ∈ '/' :: rest, x ≠ 'v' := by
      rw [hrest]
      exact no_v_cons (by decide)
        (no_v_append (by decide)
          (no_v_cons (by decide)
            (no_v_append (by decide)
              (no_v_cons (by decide) (no_v_digits hp)))))
    have hme : tryCtx meLit CtxKind.me rest = some (CtxKind.me, none, p) := by
      rw [hrest]
      unfold tryCtx
      rw [matchLit_append]
      simp only [matchApiAfterCtx,
        show matchApiWithId ('/' :: (projectsLit ++ ('/' :: p))) = none from rfl,
        matchApiNoId, matchKindTail_projects hp hpne]
    have hapi : matchApiAt ('/' :: rest) = some (CtxKind.me, none, p) := by
      have hu : tryCtx usersLit CtxKind.users rest = none := by rw [hrest]; rfl
      simp only [matchApiAt, hu, hme]
    have hsa : searchApi ('/' :: rest) = some (CtxKind.me, none, p) := by
      unfold searchApi
      rw [hapi]
    simp [extract_vimeo_folder_info, searchWeb_none_no_v hnov, hsa]
  · intro s ds h
    simp [extract_vimeo_folder_info, h]

/-- Witness for C2, at concrete ids; the final conjunct exercises an input
matching both patterns, where the web-folder pattern wins. -/
theorem resolver_patterns_witness :
    extract_vimeo_folder_info (some "http://vimeo.com/manage/folders/42")
        = (some "42", none, none)
      ∧ extract_vimeo_folder_info (some "/teams/12/projects/345")
        = (some "345", none, some "12")
      ∧ extract_vimeo_folder_info (some "/users/7/albums/88")
        = (some "88", some "7", none)
      ∧ extract_vimeo_folder_info (some "/me/projects/5")
        = (some "5", none, none)
      ∧ extract_vimeo_folder_info
          (some "https://vimeo.com/manage/folders/42/users/7/albums/88")
        = (some "42", none, none) := by
  refine ⟨?_, ?_, ?_, ?_, ?_⟩
  · exact resolver_patterns.1 ['4','2'] (by decide) (by decide)
  · exact resolver_patterns.2.1 ['1','2'] ['3','4','5'] (by decide) (by decide)
      (by decide) (by decide)
  · exact resolver_patterns.2.2.1 ['7'] ['8','8'] (by decide) (by decide)
      (by decide) (by decide)
  · exact resolver_patterns.2.2.2.1 ['5'] (by decide) (by decide)
  · exact resolver_patterns.2.2.2.2
      "https://vimeo.com/manage/folders/42/users/7/albums/88" ['4','2']
      (by decide)

/-! #### C6: unresolvable input -/

/-- Counterexample to C6: the `upload.py` resolver has no string guard, so
a non-string input does not yield Unresolvable — the call raises a
`TypeError` past the resolver's boundary. -/
theorem resolver_nonstring_counterexample :
    extract_vimeo_album_id none
        = Except.error "TypeError: expected string or bytes-like object"
      ∧ extract_vimeo_album_id none ≠ Except.ok none :=
  ⟨rfl, fun h => Except.noConfusion h⟩

/-- C6 as amended.  For every *string* matching neither pattern (including
the empty string) both resolvers return Unresolvable without raising; the
guarded `uploader.py` resolver also returns Unresolvable on non-string
input, but the `upload.py` variant raises a `TypeError` there. -/
theorem resolver_unresolvable :
    extract_vimeo_folder_info (some "") = (none, none, none)
      ∧ extract_vimeo_folder_info none = (none, none, none)
      ∧ (∀ s : String, searchWeb s.data = none → searchApi s.data = none →
        extract_vimeo_folder_info (some s) = (none, none, none))
      ∧ (∀ s : String, searchWeb s.data = none → searchAlbumApi s.data = none →
        extract_vimeo_album_id (some s) = Except.ok none)
      ∧ extract_vimeo_album_id (some "") = Except.ok none
      ∧ extract_vimeo_album_id none
        = Except.error "TypeError: expected string or bytes-like object" := by
  refine ⟨rfl, rfl, ?_, ?_, rfl, rfl⟩
  · intro s h1 h2
    simp [extract_vimeo_folder_info, h1, h2]
  · intro s h1 h2
    simp [extract_vimeo_album_id, h1, h2]

/-- Witness for the amended C6 at the concrete unmatched string
`"not-a-uri"`. -/
theorem resolver_unresolvable_witness :
    extract_vimeo_folder_info (some "not-a-uri") = (none, none, none)
      ∧ extract_vimeo_album_id (some "not-a-uri") = Except.ok none :=
  ⟨resolver_unresolvable.2.2.1 "not-a-uri" (by decide) (by decide),
    resolver_unresolvable.2.2.2.1 "not-a-uri" (by decide) (by decide)⟩

/-! ### C9: worksheet round-trip

Reading keeps only the five recognized fields; the write-back maps every
other header to `entry.get(header, "") = ""`.  So an unrecognized column's
values are blanked by a write, even for rows the run skipped — the claimed
pass-through does not hold.  What does hold: the five recognized columns
round-trip (modulo the stripping applied at read time), and merging a
result touches only the status and (for truthy results) the URI field. -/

theorem rowGet_writeRow (fns : List String) (e : UploadEntry) (h : String) :
    rowGet (writeRow fns e) h = if h ∈ fns then entryValueFor e h else "" := by
  induction fns with
  | nil => simp [writeRow, rowGet]
  | cons a l ih =>
    by_cases hah : a = h
    · subst hah
      simp [writeRow, rowGet]
    · have hstep : rowGet (writeRow (a :: l) e) h = rowGet (writeRow l e) h := by
        simp [writeRow, rowGet, hah]
      rw [hstep, ih]
      simp [List.mem_cons, Ne.symm hah]

/-- An entry whose five fields are unchanged by `str.strip()` — exactly
the shape of every entry produced by reading the worksheet. -/
def StrippedEntry (e : UploadEntry) : Prop :=
  pyStrip e.meeting_id = e.meeting_id
    ∧ pyStrip e.vimeo_uri = e.vimeo_uri
    ∧ pyStrip e.desired_filename = e.desired_filename
    ∧ pyStrip e.zoom_download_status = e.zoom_download_status
    ∧ pyStrip e.vimeo_upload_status = e.vimeo_upload_status

theorem mem_writeFields {h : String} {hdrs : List String} (hm : h ∈ hdrs) :
    h ∈ writeFields hdrs := by
  unfold writeFields
  split
  · exact hm
  · exact List.mem_append_left _ hm

theorem vus_mem_writeFields (hdrs : List String) :
    "vimeo_upload_status" ∈ writeFields hdrs := by
  unfold writeFields
  split
  · assumption
  · exact List.mem_append_right _ (List.mem_singleton.mpr rfl)

def rowC9 : Row :=
  [("Meeting ID", "111"), ("Vimeo URI", "ref"), ("File Name", "Intro.mp4"),
   ("Notes", "keep this")]

def hdrsC9 : List String := ["Meeting ID", "Vimeo URI", "File Name", "Notes"]

/-- Counterexample to C9: a worksheet with an extra `Notes` column whose
row is left untouched by the run (the entry is read and written back
unchanged) loses the `Notes` value — the written cell is empty, so columns
not recognized by the pipeline do not pass through unchanged. -/
theorem worksheet_roundtrip_counterexample :
    rowGet rowC9 "Notes" = "keep this"
      ∧ rowGet (writeRow (writeFields hdrsC9) (readEntry rowC9)) "Notes" = ""
      ∧ ("keep this" : String) ≠ "" := by
  decide

/-- C9 as amended.  Writing the worksheet back emits, for every header
outside the five recognized display names and the three entry keys
reachable through the `entry.get(header, "")` fallthrough, the empty
string (so a generic unrecognized column's values are lost, even for
skipped rows); a column literally named `meeting_id`, `vimeo_uri` or
`desired_filename` instead receives the corresponding entry field through
that fallthrough; for the recognized columns the write/read round-trip
restores each entry exactly (entries are stripped at read time, so
re-reading is the identity on them); and merging a RunResult into an
entry changes only the status and URI fields, leaving the id, file name
and download-status columns untouched. -/
theorem worksheet_roundtrip_amended :
    (∀ (fns : List String) (e : UploadEntry) (h0 : String), h0 ∈ fns →
      h0 ∉ passthroughHeaders → rowGet (writeRow fns e) h0 = "")
    ∧ (∀ (fns : List String) (e : UploadEntry),
      ("meeting_id" ∈ fns →
        rowGet (writeRow fns e) "meeting_id" = e.meeting_id)
      ∧ ("vimeo_uri" ∈ fns →
        rowGet (writeRow fns e) "vimeo_uri" = e.vimeo_uri)
      ∧ ("desired_filename" ∈ fns →
        rowGet (writeRow fns e) "desired_filename" = e.desired_filename))
    ∧ (∀ (hdrs : List String) (e : UploadEntry),
      "Meeting ID" ∈ hdrs → "Vimeo URI" ∈ hdrs → "File Name" ∈ hdrs →
      "zoom_download_status" ∈ hdrs → StrippedEntry e →
      readEntry (writeRow (writeFields hdrs) e) = e)
    ∧ (∀ (e : UploadEntry) (r : UploadRunResult),
      (applyResult e r).meeting_id = e.meeting_id
        ∧ (applyResult e r).desired_filename = e.desired_filename
        ∧ (applyResult e r).zoom_download_status = e.zoom_download_status) := by
  refine ⟨?_, ?_, ?_, ?_⟩
  · intro fns e h0 hmem hnr
    rw [rowGet_writeRow, if_pos hmem]
    simp only [passthroughHeaders, recognizedHeaders, List.mem_append,
      List.mem_cons, List.mem_singleton, not_or] at hnr
    obtain ⟨⟨n1, n2, n3, n4, n5⟩, n6, n7, n8⟩ := hnr
    simp [entryValueFor, n1, n2, n3, n4, n5, n6, n7, n8]
  · intro fns e
    refine ⟨fun hm => ?_, fun hm => ?_, fun hm => ?_⟩ <;>
      rw [rowGet_writeRow, if_pos hm] <;> rfl
  · intro hdrs e hm1 hm2 hm3 hm4 hstr
    obtain ⟨s1, s2, s3, s4, s5⟩ := hstr
    simp [readEntry, rowGet_writeRow, mem_writeFields hm1, mem_writeFields hm2,
      mem_writeFields hm3, mem_writeFields hm4, vus_mem_writeFields,
      entryValueFor, s1, s2, s3, s4, s5]
  · intro e r
    refine ⟨rfl, rfl, rfl⟩

def hdrsW9 : List String :=
  ["Meeting ID", "Vimeo URI", "File Name", "zoom_download_status",
   "meeting_id", "Notes"]

def entryW9 : UploadEntry := ⟨"111", "ref", "Intro.mp4", "done", "uploaded"⟩

def resW9 : UploadRunResult := ⟨"111", "failed", some "/videos/7", "msg"⟩

/-- Witness for the amended C9 at a concrete worksheet: the `Notes` column
is blanked, a column literally named `meeting_id` receives the entry's id
through the fallthrough, the recognized columns round-trip exactly, and
merging a result leaves the id, file name and download status unchanged. -/
theorem worksheet_roundtrip_amended_witness :
    rowGet (writeRow (writeFields hdrsW9) entryW9) "Notes" = ""
      ∧ rowGet (writeRow (writeFields hdrsW9) entryW9) "meeting_id"
        = entryW9.meeting_id
      ∧ readEntry (writeRow (writeFields hdrsW9) entryW9) = entryW9
      ∧ (applyResult entryW9 resW9).meeting_id = entryW9.meeting_id
      ∧ (applyResult entryW9 resW9).desired_filename = entryW9.desired_filename
      ∧ (applyResult entryW9 resW9).zoom_download_status
        = entryW9.zoom_download_status := by
  refine ⟨?_, ?_, ?_, ?_⟩
  · exact worksheet_roundtrip_amended.1 (writeFields hdrsW9) entryW9 "Notes"
      (mem_writeFields (by decide)) (by decide)
  · exact (worksheet_roundtrip_amended.2.1 (writeFields hdrsW9) entryW9).1
      (mem_writeFields (by decide))
  · exact worksheet_roundtrip_amended.2.2.1 hdrsW9 entryW9 (by decide)
      (by decide) (by decide) (by decide)
      ⟨by decide, by decide, by decide, by decide, by decide⟩
  · exact worksheet_roundtrip_amended.2.2.2 entryW9 resW9

/-! ### C8: filename normalization across flows

The fetch flow (`zoom.py`, `zoom_upload_new.py`) and `uploader.py` both
append `.mp4` to an extension-less name before computing the local path,
but `process_vimeo_upload` in `upload.py` skips the normalization and
joins the raw name — so the same work item maps to two different local
paths across the fetch and publish flows. -/

/-- Local path computed by the fetch flow (`zoom.py`). -/
def fetchLocalPath (d : String) : String := osJoin DOWNLOAD_DIR (normalizeName d)

/-- Local path computed by `uploader.py`'s publish flow. -/
def uploaderLocalPath (d : String) : String :=
  osJoin DOWNLOAD_DIR (normalizeName d)

/-- Local path computed by `upload.py`'s publish flow — no normalization. -/
def legacyUploadLocalPath (d : String) : String := osJoin DOWNLOAD_DIR d

/-- C8 evaluated at the failing input `"Intro"`: the fetch flow and
`uploader.py` normalize by appending `.mp4` exactly once (idempotently)
and agree on `zoom_downloads/Intro.mp4`, but `upload.py`'s publish flow
computes `zoom_downloads/Intro`, a different path for the same item — the
claimed single normalization used by every local-path computation does
not hold of `upload.py`. -/
theorem name_normalization_divergence :
    normalizeName "Intro" = "Intro.mp4"
      ∧ normalizeName (normalizeName "Intro") = normalizeName "Intro"
      ∧ fetchLocalPath "Intro" = "zoom_downloads/Intro.mp4"
      ∧ uploaderLocalPath "Intro" = fetchLocalPath "Intro"
      ∧ legacyUploadLocalPath "Intro" = "zoom_downloads/Intro"
      ∧ legacyUploadLocalPath "Intro" ≠ fetchLocalPath "Intro" := by
  decide

/-- Witness for C10: account A is complete, B is missing its client id,
C is fully configured — yet the pool stops after A: it equals the
one-letter run, has length below 2, and its names are consecutive. -/
theorem credential_pool_loading_witness :
    (loadZoomAccounts envW10 = loadFrom envW10 1 1
      ∧ (loadZoomAccounts envW10).length < 2
      ∧ (loadZoomAccounts envW10).map (fun a => a.name)
        = (List.range' 1 (loadZoomAccounts envW10).length).map
            (fun k => "Account_" ++ String.mk [accountLetter k]))
    ∧ loadZoomAccounts envW10 = [⟨"Account_A", "aid1", "cid1", "sec1"⟩] :=
  ⟨credential_pool_loading envW10 2 (by decide) (by decide)
    (Or.inr (Or.inl (by decide))), by decide⟩

end ZoomVimeo
